import Mathlib

/-!
Verification of the late-pickup / over-SLA calculation pipeline (src/app.py).

The embedding models one shipment row at second resolution. A timestamp is a
calendar date plus a time of day; arithmetic on timestamps (differences,
adding SLA days, normalizing to midnight) goes through a conversion to epoch
seconds using the standard civil-calendar day-numbering algorithm. Derived
cells that the source stores as a mixed string-or-number column are modelled
by the sum type CellVal.
-/

/-- A calendar timestamp at second resolution, as produced by the date
parsing step of the pipeline. -/
structure DateTime where
  year : Nat
  month : Nat
  day : Nat
  hour : Nat
  minute : Nat
  second : Nat
deriving DecidableEq, Repr

/-- Day number of a civil date (days since 1970-01-01, signed), by the
standard era-based civil calendar algorithm. -/
def daysFromCivil (y m d : Nat) : Int :=
  let yi : Int := if m ≤ 2 then (y : Int) - 1 else (y : Int)
  let era : Int := yi / 400
  let yoe : Int := yi - era * 400
  let mp : Int := if 2 < m then (m : Int) - 3 else (m : Int) + 9
  let doy : Int := (153 * mp + 2) / 5 + (d : Int) - 1
  let doe : Int := yoe * 365 + yoe / 4 - yoe / 100 + doy
  era * 146097 + doe - 719468

/-- Epoch seconds of a timestamp (seconds since 1970-01-01 00:00:00). -/
def toSec (t : DateTime) : Int :=
  daysFromCivil t.year t.month t.day * 86400
    + ((t.hour * 3600 + t.minute * 60 + t.second : Nat) : Int)

/-- Inverse of daysFromCivil: civil date (year, month, day) of a signed day
number, by the standard era-based algorithm. Used only to render a
timestamp back to its calendar fields for display. -/
def civilFromDays (z0 : Int) : Nat × Nat × Nat :=
  let z : Int := z0 + 719468
  let era : Int := z / 146097
  let doe : Int := z - era * 146097
  let yoe : Int := (doe - doe / 1461 + doe / 36524 - doe / 146096) / 365
  let y : Int := yoe + era * 400
  let doy : Int := doe - (365 * yoe + yoe / 4 - yoe / 100)
  let mp : Int := (5 * doy + 2) / 153
  let d : Int := doy - (153 * mp + 2) / 5 + 1
  let m : Int := if mp < 10 then mp + 3 else mp - 9
  ((if m ≤ 2 then y + 1 else y).toNat, m.toNat, d.toNat)

/-- Timestamp of an epoch-second value. -/
def dtOfSec (s : Int) : DateTime :=
  let days : Int := s / 86400
  let tod : Nat := (s - days * 86400).toNat
  let c := civilFromDays days
  ⟨c.1, c.2.1, c.2.2, tod / 3600, tod % 3600 / 60, tod % 60⟩

/-- Seconds since midnight of a timestamp; models the .time() accessor that
the lateness rule compares against the 15:00 cutoff. -/
def timeOfDay (t : DateTime) : Nat := t.hour * 3600 + t.minute * 60 + t.second

/-- The fixed daily cutoff of the lateness rule, 15:00:00, in seconds since
midnight (source: pd.to_datetime with the literal 15:00:00, line 43). -/
def cutoffSecs : Nat := 15 * 3600

/-- Strict calendar-date comparison a.date() < b.date(): lexicographic on
(year, month, day), exactly how Python compares date objects. -/
def dateLtB (a b : DateTime) : Bool :=
  decide (a.year < b.year)
    || (decide (a.year = b.year)
        && (decide (a.month < b.month)
            || (decide (a.month = b.month) && decide (a.day < b.day))))

/-- Calendar-date equality a.date() == b.date(). -/
def dateEqB (a b : DateTime) : Bool :=
  decide (a.year = b.year) && decide (a.month = b.month) && decide (a.day = b.day)

/-- A cell of a derived column: the source mixes integers and sentinel
strings in the same column, which this sum type makes explicit. -/
inductive CellVal where
  | str (s : String)
  | int (n : Int)
deriving DecidableEq, Repr

/-- Lateness classification of one row (src/app.py lines 24-52,
determine_late_pickup). Returns the pair (Late Pickup, Days Late). The
source locals request_time, actual_pickup_datetime, request_datetime and
time_difference are inlined; the Timedelta comparison with one day is the
comparison with 86400 seconds, and Timedelta.days is floor division by
86400 seconds: on Int the division is Euclidean, which for the positive
divisor 86400 is the floor division that Timedelta.days performs. -/
def determine_late_pickup (dispatch_at pickup_date : Option DateTime) : CellVal × CellVal :=
  match dispatch_at with
  | none => (CellVal.str "Dispatch at Kosong", CellVal.str "Dispatch at Kosong")
  | some actual_pickup =>
    match pickup_date with
    | none => (CellVal.str "Non-Late Pickup", CellVal.int 0)
    | some request =>
      if 86400 < toSec actual_pickup - toSec request then
        (CellVal.str "Late Pickup", CellVal.int ((toSec actual_pickup - toSec request) / 86400))
      else if cutoffSecs ≤ timeOfDay request ∧ dateLtB request actual_pickup = true then
        (CellVal.str "Non-Late Pickup", CellVal.int 0)
      else if timeOfDay request < cutoffSecs ∧ dateEqB actual_pickup request = true then
        (CellVal.str "Non-Late Pickup", CellVal.int 0)
      else if timeOfDay request < cutoffSecs ∧ dateLtB request actual_pickup = true then
        (CellVal.str "Late Pickup", CellVal.int 1)
      else (CellVal.str "Non-Late Pickup", CellVal.int 0)

/-- Spec-side statement of the four-branch 15:00 cutoff rule, written from
the wording of the claim: (1) request time at or after the cutoff and
dispatch on a later calendar date is on time; (2) request before the cutoff
dispatched the same calendar date is on time; (3) request before the cutoff
dispatched on a later calendar date is late by one day; (4) every other
combination is on time. Compared against determine_late_pickup. -/
def cutoff_rule_spec (actual_pickup request : DateTime) : CellVal × CellVal :=
  if cutoffSecs ≤ timeOfDay request ∧ dateLtB request actual_pickup = true then
    (CellVal.str "Non-Late Pickup", CellVal.int 0)
  else if timeOfDay request < cutoffSecs ∧ dateEqB actual_pickup request = true then
    (CellVal.str "Non-Late Pickup", CellVal.int 0)
  else if timeOfDay request < cutoffSecs ∧ dateLtB request actual_pickup = true then
    (CellVal.str "Late Pickup", CellVal.int 1)
  else (CellVal.str "Non-Late Pickup", CellVal.int 0)

/-- Claim C1: for every record with non-null Dispatch at and non-null
Pickup Date whose elapsed time does not exceed 24 hours,
determine_late_pickup applies exactly the four-branch 15:00 cutoff rule. -/
theorem determine_late_pickup_cutoff_rule (actual_pickup request : DateTime)
    (h : toSec actual_pickup - toSec request ≤ 86400) :
    determine_late_pickup (some actual_pickup) (some request) =
      cutoff_rule_spec actual_pickup request := by
  simp only [determine_late_pickup, cutoff_rule_spec]
  rw [if_neg (by omega)]

/-- Witness for C1, at the spec example: request on 2024-03-14 at 14:00,
dispatch on 2024-03-15 at 09:00 (elapsed 19 hours), giving Late Pickup, 1. -/
theorem determine_late_pickup_cutoff_rule_witness :
    toSec ⟨2024, 3, 15, 9, 0, 0⟩ - toSec ⟨2024, 3, 14, 14, 0, 0⟩ ≤ 86400 ∧
    determine_late_pickup (some ⟨2024, 3, 15, 9, 0, 0⟩) (some ⟨2024, 3, 14, 14, 0, 0⟩) =
      cutoff_rule_spec ⟨2024, 3, 15, 9, 0, 0⟩ ⟨2024, 3, 14, 14, 0, 0⟩ ∧
    cutoff_rule_spec ⟨2024, 3, 15, 9, 0, 0⟩ ⟨2024, 3, 14, 14, 0, 0⟩ =
      (CellVal.str "Late Pickup", CellVal.int 1) :=
  ⟨by decide, determine_late_pickup_cutoff_rule ⟨2024, 3, 15, 9, 0, 0⟩ ⟨2024, 3, 14, 14, 0, 0⟩ (by decide),
   by decide⟩

/-- Claim C2: determine_late_pickup evaluates its pre-cutoff rules in
priority order: null Dispatch at gives the sentinel pair; otherwise null
Pickup Date gives (Non-Late Pickup, 0); otherwise an elapsed time above 24
hours gives Late Pickup with the elapsed time in whole days. -/
theorem determine_late_pickup_priority (d p : Option DateTime) :
    (d = none →
      determine_late_pickup d p =
        (CellVal.str "Dispatch at Kosong", CellVal.str "Dispatch at Kosong")) ∧
    (∀ a, d = some a → p = none →
      determine_late_pickup d p = (CellVal.str "Non-Late Pickup", CellVal.int 0)) ∧
    (∀ a r, d = some a → p = some r → 86400 < toSec a - toSec r →
      determine_late_pickup d p =
        (CellVal.str "Late Pickup", CellVal.int ((toSec a - toSec r) / 86400))) := by
  refine ⟨?_, ?_, ?_⟩
  · intro h; subst h; rfl
  · intro a hd hp; subst hd; subst hp; rfl
  · intro a r hd hp hgt; subst hd; subst hp
    simp only [determine_late_pickup]
    rw [if_pos hgt]

/-- Witness for C2, covering all three priority branches; the third is the
spec example of exactly 48 hours elapsed, which yields (Late Pickup, 2). -/
theorem determine_late_pickup_priority_witness :
    determine_late_pickup none none =
      (CellVal.str "Dispatch at Kosong", CellVal.str "Dispatch at Kosong") ∧
    determine_late_pickup (some ⟨2024, 3, 14, 9, 0, 0⟩) none =
      (CellVal.str "Non-Late Pickup", CellVal.int 0) ∧
    (86400 < toSec ⟨2024, 3, 16, 9, 0, 0⟩ - toSec ⟨2024, 3, 14, 9, 0, 0⟩ ∧
      determine_late_pickup (some ⟨2024, 3, 16, 9, 0, 0⟩) (some ⟨2024, 3, 14, 9, 0, 0⟩) =
        (CellVal.str "Late Pickup", CellVal.int 2)) :=
  ⟨(determine_late_pickup_priority none none).1 rfl,
   (determine_late_pickup_priority (some ⟨2024, 3, 14, 9, 0, 0⟩) none).2.1 _ rfl rfl,
   by decide,
   by
     have h := (determine_late_pickup_priority (some ⟨2024, 3, 16, 9, 0, 0⟩)
       (some ⟨2024, 3, 14, 9, 0, 0⟩)).2.2 _ _ rfl rfl (by decide)
     rw [h]; decide⟩

/-- Claim C10: the label and the day count returned by
determine_late_pickup agree: the sentinel label occurs exactly when the
count is the sentinel, a Non-Late Pickup label always carries count 0, a
Late Pickup label always carries a count of at least 1, and a numeric count
is never negative. -/
theorem late_pickup_label_count_invariant (d p : Option DateTime) :
    ((determine_late_pickup d p).1 = CellVal.str "Dispatch at Kosong" ↔
      (determine_late_pickup d p).2 = CellVal.str "Dispatch at Kosong") ∧
    ((determine_late_pickup d p).1 = CellVal.str "Non-Late Pickup" →
      (determine_late_pickup d p).2 = CellVal.int 0) ∧
    ((determine_late_pickup d p).1 = CellVal.str "Late Pickup" →
      ∃ n : Int, 1 ≤ n ∧ (determine_late_pickup d p).2 = CellVal.int n) ∧
    (∀ n : Int, (determine_late_pickup d p).2 = CellVal.int n → 0 ≤ n) := by
  cases d with
  | none => exact ⟨by simp [determine_late_pickup], by simp [determine_late_pickup],
      by simp [determine_late_pickup], by simp [determine_late_pickup]⟩
  | some a =>
    cases p with
    | none => exact ⟨by simp [determine_late_pickup], by simp [determine_late_pickup],
        by simp [determine_late_pickup], by simp [determine_late_pickup]⟩
    | some r =>
      by_cases h1 : 86400 < toSec a - toSec r
      · refine ⟨?_, ?_, ?_, ?_⟩ <;>
          simp only [determine_late_pickup, if_pos h1]
        · constructor <;> intro h <;> exact absurd h (by simp)
        · intro h; exact absurd h (by simp)
        · intro _; exact ⟨(toSec a - toSec r) / 86400, by omega, rfl⟩
        · intro n hn
          have : ((toSec a - toSec r) / 86400 : Int) = n := by
            have := CellVal.int.injEq ((toSec a - toSec r) / 86400) n
            simp [hn] at this ⊢
            omega
          omega
      · simp only [determine_late_pickup, if_neg h1]
        by_cases h2 : cutoffSecs ≤ timeOfDay r ∧ dateLtB r a = true
        · rw [if_pos h2]
          exact ⟨by simp, by intro _; rfl, by intro h; exact absurd h (by simp),
            by intro n hn; simp at hn; omega⟩
        · rw [if_neg h2]
          by_cases h3 : timeOfDay r < cutoffSecs ∧ dateEqB a r = true
          · rw [if_pos h3]
            exact ⟨by simp, by intro _; rfl, by intro h; exact absurd h (by simp),
              by intro n hn; simp at hn; omega⟩
          · rw [if_neg h3]
            by_cases h4 : timeOfDay r < cutoffSecs ∧ dateLtB r a = true
            · rw [if_pos h4]
              exact ⟨by simp, by intro h; exact absurd h (by simp),
                by intro _; exact ⟨1, by omega, rfl⟩,
                by intro n hn; simp at hn; omega⟩
            · rw [if_neg h4]
              exact ⟨by simp, by intro _; rfl, by intro h; exact absurd h (by simp),
                by intro n hn; simp at hn; omega⟩

/-- Witness for C10: at a row with null Dispatch at, the sentinel label
forces the sentinel day count. -/
theorem late_pickup_label_count_invariant_witness :
    (determine_late_pickup none none).2 = CellVal.str "Dispatch at Kosong" :=
  (late_pickup_label_count_invariant none none).1.mp (by decide)

/-- The original (non-derived) fields of one shipment row that the
enrichment engine reads: the three load-bearing timestamps plus Created at
after the parsing step, the max SLA threshold, and the Tracking Status
text (carried through but never read by any computation in src/app.py). -/
structure RowInput where
  createdAt : Option DateTime
  dispatchAt : Option DateTime
  pickupDate : Option DateTime
  deliveredAt : Option DateTime
  maxSLA : Int
  trackingStatus : String
deriving DecidableEq, Repr

/-- The derived cells appended to one row by process_data. Tanggal Max is
kept as an epoch-second timestamp option because the source stores NaT,
not a sentinel string, in the null case (src/app.py lines 99-103). -/
structure DerivedRow where
  latePickup : CellVal
  daysLate : CellVal
  tanggalMax : Option Int
  overSLA : CellVal
  overSLA_IP : CellVal
deriving DecidableEq, Repr

/-- Tanggal Max of one row (src/app.py lines 99-103): Dispatch at plus max
SLA days when Dispatch at is non-null, else NaT (modelled as none). -/
def tanggal_max_of (dispatch_at : Option DateTime) (max_sla : Int) : Option Int :=
  match dispatch_at with
  | some d => some (toSec d + max_sla * 86400)
  | none => none

/-- Over SLA of one row (src/app.py lines 106-110): the signed whole-day
difference of Tanggal Max and Delivered at when both are present; else the
missing-delivery sentinel when Delivered at is null (this check comes
first in the source conditional expression), else the missing-dispatch
sentinel. -/
def over_sla_of (tanggal_max : Option Int) (delivered_at : Option DateTime) : CellVal :=
  match tanggal_max, delivered_at with
  | some tm, some del => CellVal.int ((tm - toSec del) / 86400)
  | _, none => CellVal.str "Delivered at Kosong"
  | none, some _ => CellVal.str "Dispatch at Kosong"

/-- Over SLA IP of one row (src/app.py lines 119-123): the whole-day
difference of the batch-wide Today timestamp and Tanggal Max normalized to
midnight, whenever Tanggal Max is non-null, else the missing-dispatch
sentinel. The second source conjunct, an inequality of Tanggal Max with
NaT, is identically true in pandas and adds nothing. -/
def over_sla_ip_of (today : Int) (tanggal_max : Option Int) : CellVal :=
  match tanggal_max with
  | some tm => CellVal.int ((today - tm / 86400 * 86400) / 86400)
  | none => CellVal.str "Dispatch at Kosong"

/-- Derived cells of one row, in the order process_data computes them
(src/app.py lines 95-123), with the batch-wide Today timestamp passed in. -/
def enrichRow (today : Int) (r : RowInput) : DerivedRow :=
  let lp := determine_late_pickup r.dispatchAt r.pickupDate
  let tm := tanggal_max_of r.dispatchAt r.maxSLA
  ⟨lp.1, lp.2, tm, over_sla_of tm r.deliveredAt, over_sla_ip_of today tm⟩

/-- Replace the Tracking Status field of a row. -/
def withStatus (r : RowInput) (s : String) : RowInput :=
  ⟨r.createdAt, r.dispatchAt, r.pickupDate, r.deliveredAt, r.maxSLA, s⟩

/-- Counterexample to claim C3: when Tanggal Max and Delivered at are both
absent, the code checks Delivered at first and returns the
missing-delivery sentinel, not the missing-dispatch sentinel the claim
gives priority to. -/
theorem over_sla_priority_cx :
    over_sla_of none none = CellVal.str "Delivered at Kosong" ∧
    over_sla_of none none ≠ CellVal.str "Dispatch at Kosong" := by decide

/-- Claim C3 as amended: Over SLA is the signed whole-day difference when
Tanggal Max and Delivered at are both present, the missing-delivery
sentinel whenever Delivered at is missing (also when Tanggal Max is
missing too: the delivery check has priority), and the missing-dispatch
sentinel exactly when Tanggal Max is missing but Delivered at present. -/
theorem over_sla_characterization (tm : Option Int) (del : Option DateTime) :
    (∀ a d, tm = some a → del = some d →
      over_sla_of tm del = CellVal.int ((a - toSec d) / 86400)) ∧
    (del = none → over_sla_of tm del = CellVal.str "Delivered at Kosong") ∧
    (tm = none → del ≠ none → over_sla_of tm del = CellVal.str "Dispatch at Kosong") := by
  cases tm <;> cases del <;>
    exact ⟨by intro a d ha hd; simp_all [over_sla_of],
      by intro h; simp_all [over_sla_of],
      by intro h hd; simp_all [over_sla_of]⟩

/-- Witness for the amended C3, covering all three cases concretely. -/
theorem over_sla_characterization_witness :
    over_sla_of (some 200000) (some ⟨1970, 1, 2, 0, 0, 0⟩) =
      CellVal.int ((200000 - toSec ⟨1970, 1, 2, 0, 0, 0⟩) / 86400) ∧
    over_sla_of (some 5) none = CellVal.str "Delivered at Kosong" ∧
    over_sla_of none (some ⟨1970, 1, 1, 0, 0, 0⟩) = CellVal.str "Dispatch at Kosong" :=
  ⟨(over_sla_characterization (some 200000) (some ⟨1970, 1, 2, 0, 0, 0⟩)).1 _ _ rfl rfl,
   (over_sla_characterization (some 5) none).2.1 rfl,
   (over_sla_characterization none (some ⟨1970, 1, 1, 0, 0, 0⟩)).2.2 rfl (by simp)⟩

/-- Counterexample to claim C4: a record in the terminal tracking state
Delivered, with a valid Tanggal Max (dispatch 2024-03-14 10:00 plus 2 SLA
days) still receives the computed in-progress day count, 4 days as of
2024-03-20, not the sentinel treatment the claim requires for terminal
states: src/app.py lines 119-123 never read Tracking Status. -/
theorem over_sla_ip_terminal_cx :
    (enrichRow (daysFromCivil 2024 3 20 * 86400)
      ⟨none, some ⟨2024, 3, 14, 10, 0, 0⟩, none, some ⟨2024, 3, 15, 10, 0, 0⟩, 2,
        "Delivered"⟩).overSLA_IP = CellVal.int 4 ∧
    CellVal.int 4 ≠ CellVal.str "Dispatch at Kosong" ∧
    CellVal.int 4 ≠ CellVal.str "Delivered at Kosong" := by decide

/-- Claim C4 as amended: Over SLA IP is computed unconditionally from the
batch Today and Tanggal Max normalized to midnight whenever Tanggal Max is
non-null, regardless of Tracking Status (the derived cells of a row do not
depend on Tracking Status at all); it is the missing-dispatch sentinel
exactly when Tanggal Max is null. No terminal-status exclusion exists in
src/app.py. -/
theorem over_sla_ip_characterization (today : Int) (r : RowInput) (s : String) :
    (enrichRow today (withStatus r s) = enrichRow today r) ∧
    (∀ tm, tanggal_max_of r.dispatchAt r.maxSLA = some tm →
      (enrichRow today r).overSLA_IP = CellVal.int ((today - tm / 86400 * 86400) / 86400)) ∧
    (tanggal_max_of r.dispatchAt r.maxSLA = none →
      (enrichRow today r).overSLA_IP = CellVal.str "Dispatch at Kosong") := by
  refine ⟨rfl, ?_, ?_⟩
  · intro tm htm
    simp only [enrichRow, over_sla_ip_of, htm]
  · intro htm
    simp only [enrichRow, over_sla_ip_of, htm]

/-- Witness for the amended C4: status independence and both Tanggal Max
cases at concrete rows. -/
theorem over_sla_ip_characterization_witness :
    (enrichRow 0 (withStatus ⟨none, none, none, none, 1, "X"⟩ "Returned") =
      enrichRow 0 ⟨none, none, none, none, 1, "X"⟩) ∧
    (enrichRow 86400 ⟨none, some ⟨1970, 1, 1, 6, 0, 0⟩, none, none, 0, "Y"⟩).overSLA_IP =
      CellVal.int ((86400 - (toSec ⟨1970, 1, 1, 6, 0, 0⟩ + 0 * 86400) / 86400 * 86400) / 86400) ∧
    (enrichRow 0 ⟨none, none, none, none, 1, "X"⟩).overSLA_IP =
      CellVal.str "Dispatch at Kosong" :=
  ⟨(over_sla_ip_characterization 0 ⟨none, none, none, none, 1, "X"⟩ "Returned").1,
   (over_sla_ip_characterization 86400 ⟨none, some ⟨1970, 1, 1, 6, 0, 0⟩, none, none, 0, "Y"⟩
      "Y").2.1 _ rfl,
   (over_sla_ip_characterization 0 ⟨none, none, none, none, 1, "X"⟩ "X").2.2 rfl⟩

/-- Decimal digit character of a value below ten. -/
def digitChar (n : Nat) : Char := Char.ofNat (48 + n)

/-- Numeric value of a decimal digit character. -/
def digitVal (c : Char) : Nat := c.toNat - 48

/-- Whether a character is a decimal digit. -/
def isDigitCh (c : Char) : Bool := decide (48 ≤ c.toNat) && decide (c.toNat ≤ 57)

/-- Two-digit zero-padded rendering, as the strftime fields d, m, H, M and
S produce. -/
def pad2 (n : Nat) : List Char := [digitChar (n / 10), digitChar (n % 10)]

/-- Four-digit zero-padded rendering, as the strftime field Y produces for
the years the pipeline can represent. -/
def pad4 (n : Nat) : List Char :=
  [digitChar (n / 1000), digitChar (n / 100 % 10), digitChar (n / 10 % 10), digitChar (n % 10)]

/-- Display form of a timestamp in the fixed day-month-year
hour:minute:second export format of src/app.py line 129. -/
def formatDateTime (t : DateTime) : List Char :=
  pad2 t.day ++ '-' :: (pad2 t.month ++ '-' :: (pad4 t.year ++ ' ' ::
    (pad2 t.hour ++ ':' :: (pad2 t.minute ++ ':' :: pad2 t.second))))

/-- Consume greedily up to k leading digit characters, as a strptime
numeric field does. -/
def takeDigits : Nat → List Char → List Char × List Char
  | 0, cs => ([], cs)
  | _ + 1, [] => ([], [])
  | k + 1, c :: cs =>
    if isDigitCh c then ((takeDigits k cs).1.cons c, (takeDigits k cs).2)
    else ([], c :: cs)

/-- Read a numeric field of at most k digits (at least one); returns the
value and the remaining characters. -/
def readNum (k : Nat) (cs : List Char) : Option (Nat × List Char) :=
  match takeDigits k cs with
  | ([], _) => none
  | (ds, rest) => some (ds.foldl (fun a c => a * 10 + digitVal c) 0, rest)

/-- Require a literal character, as a strptime separator does. -/
def expectChar (c : Char) : List Char → Option (List Char)
  | [] => none
  | x :: rest => if x = c then some rest else none

/-- Whether 29 days fit in February of a year. -/
def isLeap (y : Nat) : Bool :=
  (decide (y % 4 = 0) && decide (y % 100 ≠ 0)) || decide (y % 400 = 0)

/-- Day count of a month. -/
def daysInMonth (y m : Nat) : Nat :=
  if m = 2 then (if isLeap y then 29 else 28)
  else if m = 4 ∨ m = 6 ∨ m = 9 ∨ m = 11 then 30 else 31

/-- Field validation a successful pandas to_datetime performs on the parsed
numbers: calendar ranges for month, day, hour, minute and second, and the
representable Timestamp range (the nanosecond bounds, here rounded inward
to whole seconds; the four-digit year bounds are consequences of the range
check, recorded explicitly because the display format prints the year with
exactly four digits). -/
def validDT (t : DateTime) : Bool :=
  decide (1 ≤ t.month) && decide (t.month ≤ 12) &&
  decide (1 ≤ t.day) && decide (t.day ≤ daysInMonth t.year t.month) &&
  decide (t.hour ≤ 23) && decide (t.minute ≤ 59) && decide (t.second ≤ 59) &&
  decide (1000 ≤ t.year) && decide (t.year ≤ 9999) &&
  decide (-9223372036 ≤ toSec t) && decide (toSec t ≤ 9223372036)

/-- Construct a validated timestamp from parsed fields, or fail like the
pandas conversion does on an out-of-range value. -/
def mkDT (y m d hh mi ss : Nat) : Option DateTime :=
  let t : DateTime := ⟨y, m, d, hh, mi, ss⟩
  if validDT t then some t else none

/-- Parse the hour:minute part, with an optional seconds part, of one of
the accepted formats. -/
def parseHMS (withSec : Bool) (cs : List Char) : Option (Nat × Nat × Nat × List Char) :=
  (readNum 2 cs).bind fun hc =>
  (expectChar ':' hc.2).bind fun cs1 =>
  (readNum 2 cs1).bind fun mc =>
  if withSec then
    (expectChar ':' mc.2).bind fun cs2 =>
    (readNum 2 cs2).bind fun sc =>
    some (hc.1, mc.1, sc.1, sc.2)
  else some (hc.1, mc.1, 0, mc.2)

/-- Parse a day-first format with the given date separator, requiring the
whole input to be consumed (pandas matches the format exactly). -/
def parseDMY (sep : Char) (withSec : Bool) (cs : List Char) : Option DateTime :=
  (readNum 2 cs).bind fun dc =>
  (expectChar sep dc.2).bind fun cs1 =>
  (readNum 2 cs1).bind fun mc =>
  (expectChar sep mc.2).bind fun cs2 =>
  (readNum 4 cs2).bind fun yc =>
  (expectChar ' ' yc.2).bind fun cs3 =>
  (parseHMS withSec cs3).bind fun r =>
  if r.2.2.2.isEmpty then mkDT yc.1 mc.1 dc.1 r.1 r.2.1 r.2.2.1 else none

/-- Parse an ISO-style year-first format with dash separators, requiring
the whole input to be consumed. -/
def parseYMD (withSec : Bool) (cs : List Char) : Option DateTime :=
  (readNum 4 cs).bind fun yc =>
  (expectChar '-' yc.2).bind fun cs1 =>
  (readNum 2 cs1).bind fun mc =>
  (expectChar '-' mc.2).bind fun cs2 =>
  (readNum 2 cs2).bind fun dc =>
  (expectChar ' ' dc.2).bind fun cs3 =>
  (parseHMS withSec cs3).bind fun r =>
  if r.2.2.2.isEmpty then mkDT yc.1 mc.1 dc.1 r.1 r.2.1 r.2.2.1 else none

/-- First successful parse wins, like the for loop over formats in
parse_dates. -/
def firstSome : List (Option DateTime) → Option DateTime
  | [] => none
  | some t :: _ => some t
  | none :: rest => firstSome rest

/-- The flexible date parser of src/app.py lines 67-75: the six accepted
formats are tried in order and the first that matches the whole input
wins; a null input (NaN, from a formatted NaT) and an input matching no
format both give NaT, modelled as none. -/
def parse_dates (input : Option (List Char)) : Option DateTime :=
  match input with
  | none => none
  | some s =>
    firstSome [parseDMY '/' true s, parseDMY '-' true s, parseDMY '/' false s,
      parseDMY '-' false s, parseYMD true s, parseYMD false s]

/-- Display formatting of a nullable timestamp column cell (src/app.py
line 129): a timestamp becomes its fixed-format text, NaT becomes a null
(strftime yields NaN there), not any text. -/
def displayDT : Option DateTime → Option (List Char)
  | none => none
  | some t => some (formatDateTime t)

/-- Display formatting of the Tanggal Max column, which line 127 includes
among the formatted datetime columns; its cells are epoch-second
timestamps or NaT. -/
def displayTanggalMax : Option Int → Option (List Char)
  | none => none
  | some s => some (formatDateTime (dtOfSec s))

/-- Counterexample to claim C5: with Dispatch at null, Tanggal Max is NaT
(the source comment on line 102 says so explicitly, instead of the
sentinel string), and the display-formatting step then renders it as a
null value, i.e. the exported cell is empty rather than distinguishable
sentinel text. -/
theorem tanggal_max_empty_cx :
    tanggal_max_of none 3 = none ∧
    displayTanggalMax (tanggal_max_of none 3) = none := by decide

/-- Claim C5 as amended: Tanggal Max equals Dispatch at plus max SLA days
when Dispatch at is non-null, and is the null timestamp NaT otherwise; the
display-formatting step maps that null to an empty value, so the
missing-dispatch case exports as empty, not as sentinel text. -/
theorem tanggal_max_characterization (d : Option DateTime) (sla : Int) :
    (∀ t, d = some t → tanggal_max_of d sla = some (toSec t + sla * 86400)) ∧
    (d = none →
      tanggal_max_of d sla = none ∧ displayTanggalMax (tanggal_max_of d sla) = none) := by
  cases d <;>
    exact ⟨by intro t ht; simp_all [tanggal_max_of],
      by intro h; simp_all [tanggal_max_of, displayTanggalMax]⟩

/-- Witness for the amended C5 at concrete rows, both cases. -/
theorem tanggal_max_characterization_witness :
    tanggal_max_of (some ⟨2024, 3, 14, 10, 0, 0⟩) 3 =
      some (toSec ⟨2024, 3, 14, 10, 0, 0⟩ + 3 * 86400) ∧
    (tanggal_max_of none 7 = none ∧ displayTanggalMax (tanggal_max_of none 7) = none) :=
  ⟨(tanggal_max_characterization (some ⟨2024, 3, 14, 10, 0, 0⟩) 3).1 _ rfl,
   (tanggal_max_characterization none 7).2 rfl⟩

/-- Digit characters are digits and decode to their value. -/
theorem digit_facts : ∀ d, d < 10 →
    isDigitCh (digitChar d) = true ∧ digitVal (digitChar d) = d := by decide

/-- Reading a two-digit field from a zero-padded two-digit rendering
recovers the value and leaves the remaining characters untouched. -/
theorem readNum_pad2 (n : Nat) (h : n < 100) (rest : List Char) :
    readNum 2 (pad2 n ++ rest) = some (n, rest) := by
  have h1 := digit_facts (n / 10) (by omega)
  have h2 := digit_facts (n % 10) (by omega)
  simp only [pad2, List.cons_append, List.nil_append, readNum, takeDigits, h1.1, h2.1,
    if_true, List.foldl, h1.2, h2.2]
  simp only [Option.some.injEq, Prod.mk.injEq]
  exact ⟨by omega, List.nil_append rest⟩

/-- Reading a four-digit field from a zero-padded four-digit rendering
recovers the value and leaves the remaining characters untouched. -/
theorem readNum_pad4 (n : Nat) (h : n < 10000) (rest : List Char) :
    readNum 4 (pad4 n ++ rest) = some (n, rest) := by
  have h1 := digit_facts (n / 1000) (by omega)
  have h2 := digit_facts (n / 100 % 10) (by omega)
  have h3 := digit_facts (n / 10 % 10) (by omega)
  have h4 := digit_facts (n % 10) (by omega)
  simp only [pad4, List.cons_append, List.nil_append, readNum, takeDigits, h1.1, h2.1, h3.1,
    h4.1, if_true, List.foldl, h1.2, h2.2, h3.2, h4.2]
  simp only [Option.some.injEq, Prod.mk.injEq]
  exact ⟨by omega, List.nil_append rest⟩

/-- Reading a two-digit field that ends the input. -/
theorem readNum_pad2_nil (n : Nat) (h : n < 100) :
    readNum 2 (pad2 n) = some (n, []) := by
  have := readNum_pad2 n h []
  simpa using this

/-- Every month has at most 31 days. -/
theorem daysInMonth_le (y m : Nat) : daysInMonth y m ≤ 31 := by
  unfold daysInMonth
  split
  · split <;> omega
  · split <;> omega

/-- Bounds on the fields of a validated timestamp, in the form the
format round trip needs. -/
theorem validDT_bounds (t : DateTime) (h : validDT t = true) :
    t.day < 100 ∧ t.month < 100 ∧ t.year < 10000 ∧
    t.hour < 100 ∧ t.minute < 100 ∧ t.second < 100 := by
  simp only [validDT, Bool.and_eq_true, decide_eq_true_eq] at h
  have hm := daysInMonth_le t.year t.month
  omega

/-- Parsing the hour:minute:second part of the display form recovers the
fields. -/
theorem parseHMS_format (hh mi ss : Nat) (h1 : hh < 100) (h2 : mi < 100) (h3 : ss < 100) :
    parseHMS true (pad2 hh ++ ':' :: (pad2 mi ++ ':' :: pad2 ss)) = some (hh, mi, ss, []) := by
  simp only [parseHMS, readNum_pad2 hh h1, Option.some_bind, expectChar, if_pos,
    readNum_pad2 mi h2, readNum_pad2_nil ss h3, if_true]

/-- Parsing the display form with the dash day-first format with seconds
recovers the timestamp: the round trip of src/app.py line 129 through the
second format of parse_dates. -/
theorem parseDMY_dash_format (t : DateTime) (h : validDT t = true) :
    parseDMY '-' true (formatDateTime t) = some t := by
  obtain ⟨hd, hm, hy, hh, hmi, hs⟩ := validDT_bounds t h
  simp only [formatDateTime, parseDMY, readNum_pad2 t.day hd, Option.some_bind, expectChar,
    if_pos, readNum_pad2 t.month hm, readNum_pad4 t.year hy,
    parseHMS_format t.hour t.minute t.second hh hmi hs, List.isEmpty_nil, if_true, mkDT, h]

/-- The first format of parse_dates, with slash separators, fails on the
dash-separated display form, so the second format decides the result. -/
theorem parseDMY_slash_fails (t : DateTime) (h : t.day < 100) :
    parseDMY '/' true (formatDateTime t) = none := by
  simp only [formatDateTime, parseDMY, readNum_pad2 t.day h, Option.some_bind, expectChar]
  rfl

/-- Round trip: reparsing the display form of a validated timestamp in the
second run of the pipeline recovers exactly that timestamp. -/
theorem parse_dates_roundtrip (t : DateTime) (h : validDT t = true) :
    parse_dates (some (formatDateTime t)) = some t := by
  simp only [parse_dates, firstSome, parseDMY_slash_fails t (validDT_bounds t h).1,
    parseDMY_dash_format t h]

/-- A nullable timestamp cell is valid when it is null or its timestamp
passes the pandas validation; every cell the parsing step produces is
valid. -/
def validOpt : Option DateTime → Bool
  | none => true
  | some t => validDT t

/-- Reformatting then reparsing a valid nullable timestamp cell is the
identity: NaT formats to NaN which reparses to NaT, and a timestamp
formats to its display text which reparses to itself. -/
theorem reparse_display (x : Option DateTime) (h : validOpt x = true) :
    parse_dates (displayDT x) = x := by
  cases x with
  | none => rfl
  | some t => exact parse_dates_roundtrip t (by simpa [validOpt] using h)

/-- Second-run row input: the original columns of the enriched table, with
the four timestamp columns reformatted for display (src/app.py lines
127-129) and then reparsed by the second run of process_data (lines
80-84). -/
def reformatRow (r : RowInput) : RowInput :=
  ⟨parse_dates (displayDT r.createdAt), parse_dates (displayDT r.dispatchAt),
   parse_dates (displayDT r.pickupDate), parse_dates (displayDT r.deliveredAt),
   r.maxSLA, r.trackingStatus⟩

/-- Claim C9: enrichment is idempotent on derived values: a second run of
the enrichment on the original columns of the already-enriched table,
whose timestamp fields have been reformatted to the display form, yields
identical derived values, given the same batch Today. -/
theorem enrichment_idempotent (today : Int) (r : RowInput)
    (h1 : validOpt r.dispatchAt = true) (h2 : validOpt r.pickupDate = true)
    (h3 : validOpt r.deliveredAt = true) :
    enrichRow today (reformatRow r) = enrichRow today r := by
  simp only [enrichRow, reformatRow, reparse_display r.dispatchAt h1,
    reparse_display r.pickupDate h2, reparse_display r.deliveredAt h3]

/-- Sample row for the idempotence witness. -/
def sampleRow : RowInput :=
  ⟨some ⟨2024, 3, 10, 8, 30, 0⟩, some ⟨2024, 3, 14, 10, 0, 0⟩,
   some ⟨2024, 3, 14, 9, 0, 0⟩, some ⟨2024, 3, 16, 12, 0, 0⟩, 2, "In Transit"⟩

/-- Witness for C9 at a concrete fully populated row. -/
theorem enrichment_idempotent_witness :
    validOpt sampleRow.dispatchAt = true ∧
    enrichRow 100 (reformatRow sampleRow) = enrichRow 100 sampleRow :=
  ⟨by decide, enrichment_idempotent 100 sampleRow (by decide) (by decide) (by decide)⟩

/-- The required input columns, in order (src/app.py lines 8-12). -/
def required_columns : List String :=
  ["No", "Order ID", "Shipment ID", "Tracking ID", "Courier", "Courier Service",
   "Shipment Type", "Tracking Status", "Created at", "Dispatch at", "Pickup Date",
   "min SLA", "max SLA", "Delivered at"]

/-- Schema validation (src/app.py lines 16-20): collects every required
column missing from the table header, and succeeds exactly when that list
is empty; on failure the full list is reported. -/
def validate_columns (cols : List String) : Bool × Option (List String) :=
  let missing := required_columns.filter fun c => decide (c ∉ cols)
  if missing.isEmpty then (true, none) else (false, some missing)

/-- The canonical export column order (src/app.py lines 132-137). -/
def required_columns_order : List String :=
  ["No", "Order ID", "Shipment ID", "Tracking ID", "Courier", "Courier Service",
   "Shipment Type", "Tracking Status", "Created at", "Dispatch at", "Pickup Date",
   "min SLA", "max SLA", "Delivered at", "Late Pickup", "Days Late",
   "Tanggal Max", "Over SLA", "Today", "Over SLA IP"]

/-- The derived columns in the order process_data assigns them (lines 95,
99, 106, 116, 119); a pandas assignment appends a new column at the end of
the header only when the name is not already present. -/
def derived_columns : List String :=
  ["Late Pickup", "Days Late", "Tanggal Max", "Over SLA", "Today", "Over SLA IP"]

/-- Header of the enriched table: the input columns followed by the newly
assigned derived columns. -/
def enriched_columns (cols : List String) : List String :=
  cols ++ derived_columns.filter fun c => decide (c ∉ cols)

/-- Header of the exported table (src/app.py lines 139-141): the canonical
order first, then every other column of the enriched table in its original
relative order. -/
def final_columns (cols : List String) : List String :=
  required_columns_order ++
    (enriched_columns cols).filter fun c => decide (c ∉ required_columns_order)

/-- The data pipeline of process_data (src/app.py lines 56-143) at the
level this development models it: validation decides whether anything runs
at all; on success every row is enriched and the header is put in export
order. -/
def process_data (today : Int) (cols : List String) (rows : List RowInput) :
    Option (List String × List DerivedRow) :=
  if (validate_columns cols).1 then
    some (final_columns cols, rows.map (enrichRow today))
  else none

/-- Membership in the missing-columns list. -/
theorem missing_columns_mem (cols : List String) (c : String) :
    (c ∈ required_columns.filter fun c => decide (c ∉ cols)) ↔
      c ∈ required_columns ∧ c ∉ cols := by
  simp [List.mem_filter]

/-- The missing-columns list is empty exactly when every required column
is present. -/
theorem missing_columns_nil_iff (cols : List String) :
    (required_columns.filter fun c => decide (c ∉ cols)) = [] ↔
      ∀ c ∈ required_columns, c ∈ cols := by
  rw [List.filter_eq_nil_iff]
  constructor
  · intro h c hc
    by_contra hnc
    exact h c hc (by simpa using hnc)
  · intro h c hc
    simp [h c hc]

/-- Closed form of validate_columns. -/
theorem validate_columns_eq (cols : List String) :
    validate_columns cols =
      if ∀ c ∈ required_columns, c ∈ cols then (true, none)
      else (false, some (required_columns.filter fun c => decide (c ∉ cols))) := by
  unfold validate_columns
  by_cases h : ∀ c ∈ required_columns, c ∈ cols
  · rw [if_pos h, if_pos]
    rw [List.isEmpty_iff]
    exact (missing_columns_nil_iff cols).mpr h
  · rw [if_neg h, if_neg]
    rw [List.isEmpty_iff]
    intro hnil
    exact h ((missing_columns_nil_iff cols).mp hnil)

/-- Claim C6: schema validation succeeds exactly when every required
column is present; on failure the reported list contains exactly the
missing required columns (all of them, not just the first); the run
aborts, performing no row processing, exactly when validation fails — the
only hard failure of the pipeline. -/
theorem schema_validation_spec (today : Int) (cols : List String) (rows : List RowInput) :
    ((validate_columns cols).1 = true ↔ ∀ c ∈ required_columns, c ∈ cols) ∧
    (∀ m, (validate_columns cols).2 = some m →
      ∀ c, (c ∈ m ↔ c ∈ required_columns ∧ c ∉ cols)) ∧
    (process_data today cols rows = none ↔ ¬ ∀ c ∈ required_columns, c ∈ cols) ∧
    (∀ out, process_data today cols rows = some out →
      out = (final_columns cols, rows.map (enrichRow today))) := by
  by_cases h : ∀ c ∈ required_columns, c ∈ cols
  · have hv : validate_columns cols = (true, none) := by rw [validate_columns_eq, if_pos h]
    refine ⟨by simp only [hv]; exact ⟨fun _ => h, fun _ => trivial⟩, ?_, ?_, ?_⟩
    · intro m hm
      rw [hv] at hm
      exact absurd hm (by simp)
    · unfold process_data
      simp only [hv, if_true]
      constructor
      · intro hfalse
        exact absurd hfalse (by simp)
      · intro hn
        exact absurd h hn
    · intro out hout
      unfold process_data at hout
      simp [hv] at hout
      exact hout.symm
  · have hv : validate_columns cols =
        (false, some (required_columns.filter fun c => decide (c ∉ cols))) := by
      rw [validate_columns_eq, if_neg h]
    refine ⟨by simp [hv, h], ?_, ?_, ?_⟩
    · intro m hm
      rw [hv] at hm
      simp only [Option.some.injEq] at hm
      rw [← hm]
      exact missing_columns_mem cols
    · unfold process_data
      simp [hv, h]
    · intro out hout
      unfold process_data at hout
      simp [hv] at hout

/-- Witness for C6: a header with only one required column aborts the
run with no row processed. -/
theorem schema_validation_spec_witness :
    process_data 0 ["No", "Extra"] [] = none :=
  (schema_validation_spec 0 ["No", "Extra"] []).2.2.1.mpr (by decide)

/-- Claim C7: the exported header always begins with the canonical
sequence, and every column not in it is appended afterward in the original
relative order of the input header (the derived columns themselves all
belong to the canonical sequence, so the extras are exactly the
unrecognized input columns, filtered in order). -/
theorem export_column_order (cols : List String) :
    final_columns cols =
      required_columns_order ++ cols.filter fun c => decide (c ∉ required_columns_order) := by
  have hall : ∀ a ∈ derived_columns, a ∈ required_columns_order := by decide
  unfold final_columns enriched_columns
  rw [List.filter_append]
  have hnil : (List.filter (fun c => decide (c ∉ required_columns_order))
      (derived_columns.filter fun c => decide (c ∉ cols))) = [] := by
    rw [List.filter_eq_nil_iff]
    intro a ha
    simp [hall a (List.mem_of_mem_filter ha)]
  rw [hnil, List.append_nil]

/-- A cell value of the Tracking ID column as pandas holds it in memory. -/
inductive PyCell where
  | pyInt (n : Int)
  | pyStr (s : String)
deriving DecidableEq, Repr

/-- Python str conversion of a Tracking ID cell, applied elementwise by
astype (src/app.py line 152): an integer renders as its exact decimal
digits, never in exponential form. -/
def cellToStr : PyCell → String
  | PyCell.pyInt n => toString n
  | PyCell.pyStr s => s

/-- A serialized spreadsheet cell: either literal text or a number, which
a spreadsheet renderer may reformat into exponential form. -/
inductive ExcelValue where
  | text (s : String)
  | number (x : Int)
deriving DecidableEq, Repr

/-- Serialization of a Tracking ID cell by to_excel (src/app.py lines
147-165): the column is converted to str and the column is written under
the text format, so every cell is emitted as literal text. -/
def to_excel_tracking_cell (v : PyCell) : ExcelValue := ExcelValue.text (cellToStr v)

/-- Claim C8: every Tracking ID value is serialized as literal text, never
as a number; the sixteen-digit example value appears as its exact digit
string. -/
theorem tracking_id_as_text (v : PyCell) :
    (∃ s : String, to_excel_tracking_cell v = ExcelValue.text s) ∧
    to_excel_tracking_cell (PyCell.pyInt 1234567890123456) =
      ExcelValue.text "1234567890123456" :=
  ⟨⟨cellToStr v, rfl⟩, by decide⟩
